import Mathlib

/-!
Verification of the resilience layer of the x-data-scrapper service.

The development shallowly embeds the parts of the TypeScript source that the
checked properties are about:

* `RL` — the `RateLimiter` class (token-bucket admission control with
  retry/backoff, per-session isolation); timestamps, token counts and rates
  are modelled as rationals, mirroring JavaScript number arithmetic on the
  values the code actually produces.
* `NP` — the `NitterInstancePool` health registry.
* `GX` — the pagination / collection state machine of `get-x-data.ts`.
* `App` — the per-request orchestration loop of `app.ts` (instance retry,
  partial-result fallback on timeout).
-/

namespace RL

/-- Configuration of the rate limiter (`RateLimiterConfig`, with the numeric
fields the admission / retry logic reads). -/
structure RateLimiterConfig where
  requestsPerSecond : ℚ
  maxConcurrent : ℕ
  maxRetries : ℕ
  retryDelay : ℚ
deriving DecidableEq

/-- `RATE_LIMITER_BURST_CAPACITY` from `constants.ts` (default 15). -/
def RATE_LIMITER_BURST_CAPACITY : ℚ := 15

/-- Per-session state (`SessionState` in the source). Times are in
milliseconds except `reset`, which the upstream reports in seconds. -/
structure SessionState where
  tokens : ℚ
  activeRequests : ℕ
  remaining : ℤ
  reset : ℚ
  isLimited : Bool
  nextAvailableTime : ℚ
  requestsPerSecond : ℚ
deriving DecidableEq

/-- `RateLimiter.createSession`: a fresh session starts with a full token
budget of `requestsPerSecond`, no active requests, an assumed remaining
quota of 100 and a reset time 900 seconds ahead. -/
def createSession (cfg : RateLimiterConfig) (now : ℚ) : SessionState :=
  { tokens := cfg.requestsPerSecond
    activeRequests := 0
    remaining := 100
    reset := now / 1000 + 900
    isLimited := false
    nextAvailableTime := 0
    requestsPerSecond := cfg.requestsPerSecond }

/-- `RateLimiter.refillTokens` for one session: add `requestsPerSecond`
tokens, clamped to `min remaining RATE_LIMITER_BURST_CAPACITY`, and clear an
expired limited flag. -/
def refillTokens (now : ℚ) (s : SessionState) : SessionState :=
  let burstCap : ℚ := min (s.remaining : ℚ) RATE_LIMITER_BURST_CAPACITY
  let s1 : SessionState :=
    { s with tokens := min (s.tokens + s.requestsPerSecond) burstCap }
  if s1.isLimited = true ∧ s1.nextAvailableTime ≤ now then
    { s1 with isLimited := false }
  else s1

/-- `RateLimiter.updateRateLimit`: ingest the parsed
`x-rate-limit-remaining` / `x-rate-limit-reset` headers (absent or
unparsable headers leave the field unchanged). -/
def updateRateLimit (remaining : Option ℤ) (reset : Option ℚ)
    (s : SessionState) : SessionState :=
  let s1 := match remaining with
    | some r => { s with remaining := r }
    | none => s
  match reset with
  | some r => { s1 with reset := r }
  | none => s1

/-- The admission check of `RateLimiter._processQueue` (lines 217–247): a
queued item is admitted exactly when none of the four sequential guards
defers it — (1) unexpired cooldown, (2) per-session concurrency cap,
(3) fewer than one token, (4) soft quota block
(`remaining <= 10 && reset > now / 1000`). -/
def canAdmit (cfg : RateLimiterConfig) (now : ℚ) (s : SessionState) : Bool :=
  if s.isLimited = true ∧ now < s.nextAvailableTime then false
  else if cfg.maxConcurrent ≤ s.activeRequests then false
  else if s.tokens < 1 then false
  else if s.remaining ≤ 10 ∧ now / 1000 < s.reset then false
  else true

/-- The three admission conditions that the specification names: no
unexpired cooldown, concurrent-active count below the per-session cap, and
at least one token. -/
def specRunnable (cfg : RateLimiterConfig) (now : ℚ) (s : SessionState) : Prop :=
  ¬(s.isLimited = true ∧ now < s.nextAvailableTime) ∧
    s.activeRequests < cfg.maxConcurrent ∧ 1 ≤ s.tokens

instance (cfg : RateLimiterConfig) (now : ℚ) (s : SessionState) :
    Decidable (specRunnable cfg now s) := by
  unfold specRunnable; infer_instance

/-- One observable transition of a session's state:
token refill, admission of a queued item, completion of an admitted item,
or the failure handler (`handleError` plus the `finally` block of
`executeItem`). `jitter` is the value of `Math.random() * 20` drawn for a
rate-limit cooldown. -/
inductive SessionOp where
  | refill (now : ℚ)
  | admitOp (now : ℚ)
  | complete
  | fail (isRateLimit : Bool) (now jitter : ℚ)
deriving DecidableEq

/-- The session-state effect of `handleError` (rate-limit classification and
cooldown) followed by the `finally` block of `executeItem` (active-count
decrement). Tokens are not touched on failure. -/
def failSession (isRateLimit : Bool) (now jitter : ℚ) (s : SessionState) :
    SessionState :=
  let s1 :=
    if isRateLimit then
      let nowSeconds := now / 1000
      let waitSeconds :=
        (if nowSeconds < s.reset then s.reset - nowSeconds else 90) + jitter
      { s with isLimited := true
               nextAvailableTime := now + waitSeconds * 1000 }
    else s
  { s1 with activeRequests := s1.activeRequests - 1 }

/-- Apply one session transition, as the source does: refill clamps to the
burst cap, admission spends a token and raises the active count (only when
`canAdmit` holds), completion lowers the active count, failure runs the
error handler. -/
def applySessionOp (cfg : RateLimiterConfig) (s : SessionState) :
    SessionOp → SessionState
  | .refill now => refillTokens now s
  | .admitOp now =>
      if canAdmit cfg now s then
        { s with tokens := s.tokens - 1
                 activeRequests := s.activeRequests + 1 }
      else s
  | .complete => { s with activeRequests := s.activeRequests - 1 }
  | .fail isRateLimit now jitter => failSession isRateLimit now jitter s

/-- A session state reachable from `createSession` by a sequence of
transitions. -/
def runSession (cfg : RateLimiterConfig) (t0 : ℚ) (ops : List SessionOp) :
    SessionState :=
  ops.foldl (applySessionOp cfg) (createSession cfg t0)

/-- Retry decision of `RateLimiter.handleError` for an item with the given
current retry count: below `maxRetries` the item is re-queued with an
incremented count and a base backoff of `retryDelay * 2 ^ (newCount - 1)`,
otherwise it is rejected. -/
inductive ErrorOutcome where
  | requeue (newRetries : ℕ) (baseBackoff : ℚ)
  | reject
deriving DecidableEq

/-- `RateLimiter.handleError`, restricted to the retry bookkeeping (the
generic-failure path). -/
def handleError (cfg : RateLimiterConfig) (retries : ℕ) : ErrorOutcome :=
  if retries < cfg.maxRetries then
    .requeue (retries + 1) (cfg.retryDelay * 2 ^ (retries + 1 - 1))
  else .reject

/-- Base backoff before the `k`-th retry of an item
(`retryDelay * 2 ** (retries - 1)` with `retries = k`). -/
def backoffBase (cfg : RateLimiterConfig) (k : ℕ) : ℚ :=
  cfg.retryDelay * 2 ^ (k - 1)

/-- The actual delay including jitter: `jitter = Math.random() * 0.2 * base`,
modelled by a draw `u ∈ [0, 1)`. -/
def backoffWithJitter (cfg : RateLimiterConfig) (k : ℕ) (u : ℚ) : ℚ :=
  backoffBase cfg k + u * (2 / 10) * backoffBase cfg k

/-- Lifecycle of an item that fails on every attempt: either still queued
with a retry count, or rejected. -/
inductive ItemPhase where
  | queued (retries : ℕ)
  | rejected
deriving DecidableEq

/-- Effect of one more generic failure on an item's lifecycle, per
`handleError`. -/
def failStep (cfg : RateLimiterConfig) : ItemPhase → ItemPhase
  | .queued r =>
      match handleError cfg r with
      | .requeue r1 _ => .queued r1
      | .reject => .rejected
  | .rejected => .rejected

/-- Item lifecycle after `n` consecutive generic failures, starting from a
freshly enqueued item (`retries = 0`). -/
def afterFailures (cfg : RateLimiterConfig) (n : ℕ) : ItemPhase :=
  (failStep cfg)^[n] (.queued 0)

/-- Invariant of claim C2: a session's token count never exceeds the burst
cap `min remaining RATE_LIMITER_BURST_CAPACITY`. -/
def tokensWithinBurstCap (s : SessionState) : Prop :=
  s.tokens ≤ min (s.remaining : ℚ) RATE_LIMITER_BURST_CAPACITY

end RL

namespace NP

/-- `InstanceStatus` from `nitter-pool/types`. -/
inductive InstanceStatus where
  | healthy
  | unhealthy
  | rate_limited
deriving DecidableEq

/-- `NitterInstance` health-registry entry. -/
structure NitterInstance where
  url : String
  status : InstanceStatus
  consecutiveFailures : ℕ
  lastChecked : ℚ
  avgResponseTime : ℚ
  rateLimitedUntil : Option ℚ
deriving DecidableEq

/-- `maxConsecutiveFailures` field of `NitterInstancePool` (3). -/
def maxConsecutiveFailures : ℕ := 3

/-- Initial registry entry created by the `NitterInstancePool` constructor. -/
def initInstance (url : String) : NitterInstance :=
  { url := url
    status := .healthy
    consecutiveFailures := 0
    lastChecked := 0
    avgResponseTime := 0
    rateLimitedUntil := none }

/-- `NitterInstancePool.markInstanceFailed` on one entry. `jitterSec` is the
drawn `Math.random() * 20`; the cooldown is `(90 + jitterSec) * 1000`
milliseconds from `now`. -/
def markInstanceFailedInst (now jitterSec : ℚ) (isRateLimit : Bool)
    (inst : NitterInstance) : NitterInstance :=
  let inst1 := { inst with consecutiveFailures := inst.consecutiveFailures + 1 }
  if isRateLimit then
    { inst1 with status := .rate_limited
                 rateLimitedUntil := some (now + (90 + jitterSec) * 1000) }
  else if maxConsecutiveFailures ≤ inst1.consecutiveFailures then
    { inst1 with status := .unhealthy }
  else inst1

/-- `NitterInstancePool.markInstanceSuccess` on one entry: reset the failure
counter, restore `healthy` (clearing the cooldown) when the entry was not
healthy, and fold the response time into the moving average. -/
def markInstanceSuccessInst (responseTime : Option ℚ)
    (inst : NitterInstance) : NitterInstance :=
  let inst1 := { inst with consecutiveFailures := 0 }
  let inst2 :=
    if inst1.status ≠ .healthy then
      { inst1 with status := .healthy, rateLimitedUntil := none }
    else inst1
  match responseTime with
  | none => inst2
  | some rt =>
      if inst2.avgResponseTime = 0 then
        { inst2 with avgResponseTime := rt }
      else
        { inst2 with avgResponseTime :=
            inst2.avgResponseTime * (8 / 10) + rt * (2 / 10) }

/-- Per-entry update performed by `refreshHealthChecks` for one probe
result: a healthy probe resets failures, restores `healthy`, clears the
cooldown and overwrites the response-time average; a failed probe
increments failures and escalates to `unhealthy` at the threshold. -/
def probeUpdate (healthy : Bool) (now responseTime : ℚ)
    (inst : NitterInstance) : NitterInstance :=
  let inst1 := { inst with lastChecked := now }
  if healthy then
    { inst1 with consecutiveFailures := 0
                 status := .healthy
                 rateLimitedUntil := none
                 avgResponseTime := responseTime }
  else
    let inst2 :=
      { inst1 with consecutiveFailures := inst1.consecutiveFailures + 1 }
    if maxConsecutiveFailures ≤ inst2.consecutiveFailures then
      { inst2 with status := .unhealthy }
    else inst2

/-- One registry operation on an instance: an outcome report
(`markInstanceFailed` / `markInstanceSuccess`) or a periodic health probe. -/
inductive InstanceOp where
  | fail (isRateLimit : Bool) (now jitterSec : ℚ)
  | success (responseTime : Option ℚ)
  | probe (healthy : Bool) (now responseTime : ℚ)
deriving DecidableEq

/-- Apply one registry operation. -/
def applyInstanceOp (inst : NitterInstance) : InstanceOp → NitterInstance
  | .fail isRateLimit now jitterSec =>
      markInstanceFailedInst now jitterSec isRateLimit inst
  | .success responseTime => markInstanceSuccessInst responseTime inst
  | .probe healthy now responseTime => probeUpdate healthy now responseTime inst

/-- Registry entry reached from the initial entry by a sequence of
operations. -/
def runInstance (url : String) (ops : List InstanceOp) : NitterInstance :=
  ops.foldl applyInstanceOp (initInstance url)

/-- The pool keyed by URL; the source keeps a `Map<string, NitterInstance>`
whose keys are the configured URLs. -/
def findInstance (pool : List NitterInstance) (url : String) :
    Option NitterInstance :=
  pool.find? (fun i => i.url = url)

/-- `NitterInstancePool.markInstanceFailed` at pool level: looking up an
unknown URL returns immediately (`if (!instance) return`), otherwise the
found entry is updated in place. -/
def markInstanceFailedPool (now jitterSec : ℚ) (isRateLimit : Bool)
    (url : String) (pool : List NitterInstance) : List NitterInstance :=
  match findInstance pool url with
  | none => pool
  | some _ =>
      pool.map (fun i =>
        if i.url = url then markInstanceFailedInst now jitterSec isRateLimit i
        else i)

/-- `NitterInstancePool.markInstanceSuccess` at pool level. -/
def markInstanceSuccessPool (responseTime : Option ℚ) (url : String)
    (pool : List NitterInstance) : List NitterInstance :=
  match findInstance pool url with
  | none => pool
  | some _ =>
      pool.map (fun i =>
        if i.url = url then markInstanceSuccessInst responseTime i else i)

/-- Auxiliary invariant of the health registry: a healthy entry carries no
rate-limit cooldown. -/
def healthyClear (inst : NitterInstance) : Prop :=
  inst.status = .healthy → inst.rateLimitedUntil = none

end NP

namespace GX

/-- A parsed tweet; the collection loop keys tweets by their `url` field,
`data` stands for the rest of the parsed record. -/
structure Tweet where
  url : String
  data : ℕ
deriving DecidableEq

/-- `TweetCollectionState` from `get-x-data.ts`; the JavaScript `Set`s are
modelled as lists with membership semantics. -/
structure TweetCollectionState where
  allTweets : List Tweet
  seenUrls : List String
  consecutiveNoNewTweets : ℕ
  seenCursors : List String
deriving DecidableEq

/-- `createInitialState`. -/
def createInitialState : TweetCollectionState :=
  { allTweets := []
    seenUrls := []
    consecutiveNoNewTweets := 0
    seenCursors := [] }

/-- `addNewTweets`: keep the tweets whose URL is not yet in `seenUrls`,
record their URLs, append them to `allTweets`, and track consecutive pages
that contributed nothing new. -/
def addNewTweets (state : TweetCollectionState) (tweets : List Tweet) :
    TweetCollectionState :=
  let newTweets := tweets.filter (fun t => !(state.seenUrls.contains t.url))
  { state with
      seenUrls := state.seenUrls ++ newTweets.map (fun t => t.url)
      allTweets := state.allTweets ++ newTweets
      consecutiveNoNewTweets :=
        if newTweets.length = 0 then state.consecutiveNoNewTweets + 1 else 0 }

/-- `shouldStopCollection`: stop at the tweet limit or after 5 consecutive
pages without new tweets. -/
def shouldStopCollection (state : TweetCollectionState) (tweetsLimit : ℕ) :
    Bool :=
  if tweetsLimit ≤ state.allTweets.length then true
  else if 5 ≤ state.consecutiveNoNewTweets then true
  else false

/-- `PageInfo` as returned by `getPageInfo`. -/
structure PageInfo where
  hasShowMore : Bool
  hasLink : Bool
  linkHref : Option String
  linkText : Option String
  itemCount : ℕ
deriving DecidableEq

/-- Does a character list start with the literal `cursor=`? -/
def startsWithCursorEq : List Char → Bool
  | 'c' :: 'u' :: 'r' :: 's' :: 'o' :: 'r' :: '=' :: _ => true
  | _ => false

/-- Leftmost match of the JavaScript regex `/cursor=([^&]+)/` over a
character list: at the first position where `cursor=` is followed by at
least one character other than `&`, capture the maximal such run. -/
def findCursor : List Char → Option String
  | [] => none
  | c :: rest =>
      if startsWithCursorEq (c :: rest) then
        let grp := ((c :: rest).drop 7).takeWhile (fun ch => ch ≠ '&')
        if grp.isEmpty then findCursor rest else some (String.mk grp)
      else findCursor rest

/-- Cursor extraction of the loop body (lines 185–197 of `get-x-data.ts`):
`linkHref && linkHref.includes("cursor=")` followed by the regex match; an
absent or empty link yields no cursor. -/
def cursorOf (linkHref : Option String) : Option String :=
  match linkHref with
  | none => none
  | some href => findCursor href.toList

/-- Does `l` start with `pat`? (helper for JavaScript `includes`). -/
def listStartsWith : List Char → List Char → Bool
  | _, [] => true
  | [], _ :: _ => false
  | c :: cs, p :: ps => c = p && listStartsWith cs ps

/-- JavaScript `String.prototype.includes`. -/
def containsSub (s pat : String) : Bool :=
  go s.toList pat.toList
where
  go : List Char → List Char → Bool
    | l, pat =>
        if listStartsWith l pat then true
        else match l with
          | [] => false
          | _ :: rest => go rest pat

/-- `shouldStopPagination` from `parser.ts`: stop when the show-more
affordance is absent, the link href is absent or empty, the link text
announces the end of the timeline, the link points back at the profile, or
the link carries no cursor. -/
def shouldStopPagination (pageInfo : PageInfo) (username : String) : Bool :=
  if pageInfo.hasShowMore = false then true
  else
    match pageInfo.linkHref with
    | none => true
    | some href =>
        if href = "" then true
        else
          let linkTextLower := (pageInfo.linkText.getD "").toLower
          if containsSub linkTextLower "no more" ∨
              containsSub linkTextLower "end of" ∨
              containsSub linkTextLower "no tweets" then true
          else if href = "/" ++ username ∨ href = username then true
          else if containsSub href "cursor=" = false then true
          else false

/-- One rendered page as the loop observes it: the tweets parsed from the
HTML, the pagination affordance, and whether `navigateToNextPage`
succeeded afterwards. -/
structure PageRender where
  tweets : List Tweet
  pageInfo : PageInfo
  navSuccess : Bool
deriving DecidableEq

/-- The collection loop of `collectTweetsFromPage`, driven by the sequence
of page renders the browser produces. Each iteration merges the page's
tweets, re-checks the stop conditions, breaks on a previously seen
pagination cursor, breaks when pagination should stop, and breaks on
navigation failure; otherwise it recurses on the next render. An exhausted
render list ends the run with the current state. -/
def runCollect (username : String) (tweetsLimit : ℕ) :
    List PageRender → TweetCollectionState → TweetCollectionState
  | [], state => state
  | p :: rest, state =>
      if shouldStopCollection state tweetsLimit then state
      else
        let s1 := addNewTweets state p.tweets
        if shouldStopCollection s1 tweetsLimit then s1
        else
          let cursorStep : Option TweetCollectionState :=
            match cursorOf p.pageInfo.linkHref with
            | some cursor =>
                if s1.seenCursors.contains cursor then none
                else some { s1 with seenCursors := s1.seenCursors ++ [cursor] }
            | none => some s1
          match cursorStep with
          | none => s1
          | some s2 =>
              if shouldStopPagination p.pageInfo username then s2
              else if p.navSuccess = false then s2
              else runCollect username tweetsLimit rest s2

/-- The document returned by `collectTweetsFromPage`: the accumulated
tweets truncated to the limit (`state.allTweets.slice(0, tweetsLimit)`). -/
def collectResult (username : String) (tweetsLimit : ℕ)
    (pages : List PageRender) : List Tweet :=
  (runCollect username tweetsLimit pages createInitialState).allTweets.take
    tweetsLimit

/-- Invariant of the collection state: the accumulated tweets have pairwise
distinct URL keys, and every accumulated URL has been recorded in
`seenUrls`. -/
def urlsInvariant (s : TweetCollectionState) : Prop :=
  (s.allTweets.map (fun t => t.url)).Nodup ∧
    ∀ t ∈ s.allTweets, t.url ∈ s.seenUrls

end GX

namespace App

/-- `MAX_INSTANCE_RETRIES` from `constants.ts` (default 3). -/
def MAX_INSTANCE_RETRIES : ℕ := 3

/-- `PARTIAL_RESULTS_MIN_THRESHOLD` from `constants.ts` (default 0.2). -/
def PARTIAL_RESULTS_MIN_THRESHOLD : ℚ := 2 / 10

/-- `minTweetsForPartial` in the `/x-data/:username` handler:
`Math.ceil(tweetsLimit * PARTIAL_RESULTS_MIN_THRESHOLD)`. -/
def minTweetsForPartial (tweetsLimit : ℕ) : ℕ :=
  (⌈(tweetsLimit : ℚ) * PARTIAL_RESULTS_MIN_THRESHOLD⌉).toNat

/-- Outcome of one scrape attempt: `getXData` resolved with a tweet count,
or the race threw (`timedOut` records whether the timeout fired;
`isRateLimitMsg` whether the error message matched the 429 / rate-limit
classification). -/
inductive AttemptResult where
  | success (tweetCount : ℕ)
  | failure (timedOut : Bool) (isRateLimitMsg : Bool)
deriving DecidableEq

/-- One attempt of the handler loop: the instance chosen for it, the tweet
count of the last progress snapshot reported during the attempt (if any),
and how the attempt ended. -/
structure Attempt where
  instanceUrl : String
  progress : Option ℕ
  result : AttemptResult
deriving DecidableEq

/-- `metadata.status` of the handler's JSON response. -/
inductive ResponseStatus where
  | complete
  | partialContent
  | failed
deriving DecidableEq

/-- The parts of the handler's response the properties speak about. -/
structure Response where
  status : ResponseStatus
  httpCode : ℕ
  collected : ℕ
  attemptsUsed : ℕ
deriving DecidableEq

/-- Health-registry calls the handler makes while processing attempts. -/
inductive PoolEvent where
  | markFailed (url : String) (isRateLimit : Bool)
  | markSuccess (url : String)
deriving DecidableEq

/-- The final `500` response once every attempt failed: `collected` is the
tweet count of the last progress snapshot, if any. -/
def finalFailure (maxAttempts : ℕ) (partialData : Option ℕ) : Response :=
  { status := .failed
    httpCode := 500
    collected := partialData.getD 0
    attemptsUsed := maxAttempts }

/-- The progress snapshot after an attempt: `onProgress` overwrites the
handler-level `partialData` during the attempt, and an attempt that never
reports progress leaves the previous snapshot in place. -/
def updatedSnapshot (a : Attempt) (partialData : Option ℕ) : Option ℕ :=
  match a.progress with
  | some c => some c
  | none => partialData

/-- The attempt loop of the `/x-data/:username` handler (lines 189–337 of
`app.ts`), as a function of the per-attempt outcomes. `i` is the current
attempt index, `partialData` the last progress snapshot carried across
attempts. Returns the response together with the health-registry calls, in
order. A zero-tweet success with `tweetsLimit >= 50` penalises the
instance and retries unless this was the last attempt, in which case the
code falls through and returns the result as `complete`; a failure returns
a `206 partial` response when the timeout fired and the snapshot reaches
`minTweetsForPartial`, and otherwise penalises the instance and retries
until attempts run out. -/
def runLoop (tweetsLimit maxAttempts : ℕ) :
    ℕ → List Attempt → Option ℕ → Response × List PoolEvent
  | _, [], partialData => (finalFailure maxAttempts partialData, [])
  | i, a :: rest, partialData =>
      let pd : Option ℕ := updatedSnapshot a partialData
      match a.result with
      | .success n =>
          if 50 ≤ tweetsLimit ∧ n = 0 then
            if i < maxAttempts - 1 then
              let next := runLoop tweetsLimit maxAttempts (i + 1) rest pd
              (next.1, .markFailed a.instanceUrl false :: next.2)
            else
              ({ status := .complete
                 httpCode := 200
                 collected := n
                 attemptsUsed := i + 1 },
                [.markFailed a.instanceUrl false])
          else
            ({ status := .complete
               httpCode := 200
               collected := n
               attemptsUsed := i + 1 },
              if 0 < n then [.markSuccess a.instanceUrl] else [])
      | .failure timedOut isRateLimitMsg =>
          match pd with
          | some c =>
              if timedOut ∧ minTweetsForPartial tweetsLimit ≤ c then
                ({ status := .partialContent
                   httpCode := 206
                   collected := c
                   attemptsUsed := i + 1 }, [])
              else
                let ev := PoolEvent.markFailed a.instanceUrl isRateLimitMsg
                if i < maxAttempts - 1 then
                  let next := runLoop tweetsLimit maxAttempts (i + 1) rest pd
                  (next.1, ev :: next.2)
                else (finalFailure maxAttempts pd, [ev])
          | none =>
              let ev := PoolEvent.markFailed a.instanceUrl isRateLimitMsg
              if i < maxAttempts - 1 then
                let next := runLoop tweetsLimit maxAttempts (i + 1) rest pd
                (next.1, ev :: next.2)
              else (finalFailure maxAttempts pd, [ev])

/-- A whole request: run the attempt loop from attempt 0 with no snapshot,
with the configured `MAX_INSTANCE_RETRIES` ceiling. -/
def runRequest (tweetsLimit : ℕ) (attempts : List Attempt) :
    Response × List PoolEvent :=
  runLoop tweetsLimit MAX_INSTANCE_RETRIES 0 attempts none

end App


section RateLimiterTheorems

open RL

theorem RL.tokensWithinBurstCap_step (cfg : RateLimiterConfig)
    (s : SessionState) (op : SessionOp) (h : tokensWithinBurstCap s) :
    tokensWithinBurstCap (applySessionOp cfg s op) := by
  cases op with
  | refill now =>
      simp only [applySessionOp, refillTokens, tokensWithinBurstCap] at h ⊢
      split <;> simp
  | admitOp now =>
      simp only [applySessionOp, tokensWithinBurstCap] at h ⊢
      split
      · simpa using le_trans (by linarith : s.tokens - 1 ≤ s.tokens) h
      · exact h
  | complete =>
      simpa [applySessionOp, tokensWithinBurstCap] using h
  | fail isRateLimit now jitter =>
      simp only [applySessionOp, failSession, tokensWithinBurstCap] at h ⊢
      split <;> simpa using h

theorem RL.tokensWithinBurstCap_foldl (cfg : RateLimiterConfig)
    (ops : List SessionOp) (s : SessionState) (h : tokensWithinBurstCap s) :
    tokensWithinBurstCap (ops.foldl (applySessionOp cfg) s) := by
  induction ops generalizing s with
  | nil => exact h
  | cons op rest ih =>
      exact ih _ (tokensWithinBurstCap_step cfg s op h)

/-- C1 (counterexample): a queued item whose session satisfies all three
conditions the specification names — no unexpired cooldown, active count
below the cap, at least one token — is nevertheless not admitted, because
the soft quota guard (`remaining <= 10 && reset > now / 1000`) hard-blocks
it: session with 5 remaining, reset 100 seconds ahead, 2 tokens, no active
requests, not limited, at time 1000000 ms. -/
theorem C1_soft_block_counterexample :
    RL.specRunnable ⟨2, 5, 3, 1000⟩ 1000000 ⟨2, 0, 5, 1100, false, 0, 2⟩ ∧
      RL.canAdmit ⟨2, 5, 3, 1000⟩ 1000000 ⟨2, 0, 5, 1100, false, 0, 2⟩ = false := by
  constructor
  · unfold RL.specRunnable
    norm_num
  · unfold RL.canAdmit
    norm_num

/-- C1 (amended): the admission step admits a queued item if and only if
its session is not in an unexpired cooldown, its concurrent-active count is
below the per-session cap, it has at least one token, AND the soft quota
guard does not fire — i.e. it is not the case that the advertised
remaining quota is at most 10 with an unexpired advertised reset time. The
low-quota condition does hard-block queued items. -/
theorem C1_admission_conditions (cfg : RL.RateLimiterConfig) (now : ℚ)
    (s : RL.SessionState) :
    RL.canAdmit cfg now s = true ↔
      (RL.specRunnable cfg now s ∧
        ¬(s.remaining ≤ 10 ∧ now / 1000 < s.reset)) := by
  unfold RL.canAdmit RL.specRunnable
  split_ifs with h1 h2 h3 h4
  · simp only [false_iff]
    intro h
    exact h.1.1 h1
  · simp only [false_iff, not_lt] at h2 ⊢
    intro h
    exact absurd h2 (not_le_of_lt h.1.2.1)
  · simp only [false_iff, not_lt] at h3 ⊢
    intro h
    exact absurd h.1.2.2 (not_le_of_lt h3)
  · simp only [false_iff]
    intro h
    exact h.2 h4
  · simp only [true_iff]
    push_neg at h2 h3
    exact ⟨⟨h1, h2, h3⟩, h4⟩

/-- C2 (counterexample): with `requestsPerSecond = 20` the freshly created
session (a reachable state: the empty transition sequence) holds 20 tokens,
exceeding the burst cap `min remaining RATE_LIMITER_BURST_CAPACITY = 15`;
the invariant does not hold for every configuration. -/
theorem C2_burst_counterexample :
    ¬ RL.tokensWithinBurstCap (RL.runSession ⟨20, 5, 3, 1000⟩ 0 []) := by
  unfold RL.tokensWithinBurstCap RL.runSession RL.createSession
    RL.RATE_LIMITER_BURST_CAPACITY
  norm_num

/-- C2 (amended): provided the configured `requestsPerSecond` does not
exceed `RATE_LIMITER_BURST_CAPACITY`, every session state reachable from
`createSession` by refill, admission, completion and failure-handling
transitions keeps `tokens ≤ min remaining RATE_LIMITER_BURST_CAPACITY`. -/
theorem C2_tokens_never_exceed_burst_cap (cfg : RL.RateLimiterConfig)
    (t0 : ℚ) (ops : List RL.SessionOp)
    (h : cfg.requestsPerSecond ≤ RL.RATE_LIMITER_BURST_CAPACITY) :
    RL.tokensWithinBurstCap (RL.runSession cfg t0 ops) := by
  apply RL.tokensWithinBurstCap_foldl
  unfold RL.tokensWithinBurstCap RL.createSession
  simp only [le_min_iff]
  constructor
  · refine le_trans h ?_
    unfold RL.RATE_LIMITER_BURST_CAPACITY
    norm_num
  · exact h

/-- Witness for C2: the default configuration (1.5 requests per second)
after a refill and an admission respects the burst cap. -/
theorem C2_tokens_never_exceed_burst_cap_witness :
    RL.tokensWithinBurstCap
      (RL.runSession ⟨3 / 2, 1, 3, 2000⟩ 0 [.refill 1000, .admitOp 1000]) :=
  C2_tokens_never_exceed_burst_cap ⟨3 / 2, 1, 3, 2000⟩ 0
    [.refill 1000, .admitOp 1000] (by norm_num [RL.RATE_LIMITER_BURST_CAPACITY])

theorem RL.afterFailures_queued (cfg : RateLimiterConfig) (n : ℕ)
    (h : n ≤ cfg.maxRetries) : afterFailures cfg n = .queued n := by
  induction n with
  | zero => rfl
  | succ m ih =>
      have hm : m ≤ cfg.maxRetries := Nat.le_of_succ_le h
      have hlt : m < cfg.maxRetries := Nat.lt_of_succ_le h
      rw [afterFailures, Function.iterate_succ_apply', ← afterFailures, ih hm]
      simp [failStep, handleError, hlt]

/-- C3 (counterexample): with `maxRetries = 1` an item that has failed
exactly once (`maxRetries` generic failures) is still queued, not rejected;
the rejection happens only on failure number `maxRetries + 1 = 2`. -/
theorem C3_reject_count_counterexample :
    RL.afterFailures ⟨2, 5, 1, 1000⟩ 1 ≠ .rejected ∧
      RL.afterFailures ⟨2, 5, 1, 1000⟩ 2 = .rejected := by
  constructor
  · rw [RL.afterFailures_queued ⟨2, 5, 1, 1000⟩ 1 (le_refl 1)]
    simp
  · rw [RL.afterFailures, Function.iterate_succ_apply', ← RL.afterFailures,
      RL.afterFailures_queued ⟨2, 5, 1, 1000⟩ 1 (le_refl 1)]
    simp [RL.failStep, RL.handleError]

/-- C3 (amended): for an item failing with a generic error on every
attempt: (1) the `k`-th retry (for `1 ≤ k ≤ maxRetries`) is preceded by a
backoff whose base is `retryDelay * 2 ^ (k - 1)`; (2) the delay with jitter
lies in `[base, 1.2 * base]`, i.e. jitter adds up to 20% of the base;
(3) base delays are non-decreasing in the retry number; (4) after `n`
failures with `n ≤ maxRetries` the item is still queued with `retries = n`,
and (5) it is rejected on failure number `maxRetries + 1`, i.e. after
`maxRetries` retries (`maxRetries + 1` failed attempts), not after
`maxRetries` failures. -/
theorem C3_backoff_and_rejection (cfg : RL.RateLimiterConfig)
    (hd : 0 ≤ cfg.retryDelay) :
    (∀ k, 1 ≤ k → k ≤ cfg.maxRetries →
      RL.handleError cfg (k - 1) = .requeue k (RL.backoffBase cfg k)) ∧
    (∀ k u, 0 ≤ u → u ≤ 1 →
      RL.backoffBase cfg k ≤ RL.backoffWithJitter cfg k u ∧
        RL.backoffWithJitter cfg k u ≤ (12 / 10) * RL.backoffBase cfg k) ∧
    (∀ k l, k ≤ l → RL.backoffBase cfg k ≤ RL.backoffBase cfg l) ∧
    (∀ n, n ≤ cfg.maxRetries → RL.afterFailures cfg n = .queued n) ∧
    RL.afterFailures cfg (cfg.maxRetries + 1) = .rejected := by
  refine ⟨?_, ?_, ?_, RL.afterFailures_queued cfg, ?_⟩
  · intro k hk1 hk2
    have hlt : k - 1 < cfg.maxRetries := by omega
    have hkk : k - 1 + 1 = k := by omega
    rw [RL.handleError, if_pos hlt, hkk, RL.backoffBase]
  · intro k u hu0 hu1
    have hbase : (0 : ℚ) ≤ RL.backoffBase cfg k := by
      unfold RL.backoffBase
      positivity
    constructor
    · unfold RL.backoffWithJitter
      nlinarith
    · unfold RL.backoffWithJitter
      nlinarith
  · intro k l hkl
    unfold RL.backoffBase
    apply mul_le_mul_of_nonneg_left _ hd
    apply pow_le_pow_right₀ (by norm_num)
    omega
  · rw [RL.afterFailures, Function.iterate_succ_apply', ← RL.afterFailures,
      RL.afterFailures_queued cfg cfg.maxRetries (le_refl _)]
    simp [RL.failStep, RL.handleError]

/-- Witness for C3 (amended) at the default configuration
(`maxRetries = 3`, `retryDelay = 1000`): the second retry's base backoff is
`1000 * 2 = 2000`, and the item is rejected on the fourth failure. -/
theorem C3_backoff_and_rejection_witness :
    RL.handleError ⟨2, 5, 3, 1000⟩ 1 = .requeue 2 (RL.backoffBase ⟨2, 5, 3, 1000⟩ 2) ∧
      RL.afterFailures ⟨2, 5, 3, 1000⟩ 4 = .rejected :=
  ⟨(C3_backoff_and_rejection ⟨2, 5, 3, 1000⟩ (by norm_num)).1 2
      (by norm_num) (by norm_num),
    (C3_backoff_and_rejection ⟨2, 5, 3, 1000⟩ (by norm_num)).2.2.2.2⟩

end RateLimiterTheorems

section NitterPoolTheorems

open NP

theorem NP.healthyClear_step (inst : NitterInstance) (op : InstanceOp)
    (h : healthyClear inst) : healthyClear (applyInstanceOp inst op) := by
  unfold healthyClear at h
  cases op with
  | fail isRateLimit now jitterSec =>
      unfold healthyClear
      simp only [applyInstanceOp, markInstanceFailedInst]
      split_ifs <;> simp_all
  | success responseTime =>
      unfold healthyClear
      simp only [applyInstanceOp, markInstanceSuccessInst]
      cases responseTime <;> split_ifs <;> simp_all
  | probe healthy now responseTime =>
      unfold healthyClear
      simp only [applyInstanceOp, probeUpdate]
      split_ifs <;> simp_all

theorem NP.healthyClear_run (url : String) (ops : List InstanceOp) :
    healthyClear (runInstance url ops) := by
  unfold runInstance
  generalize hinit : initInstance url = s0
  have h0 : healthyClear s0 := by
    rw [← hinit]
    unfold healthyClear initInstance
    intro
    rfl
  clear hinit
  induction ops generalizing s0 with
  | nil => exact h0
  | cons op rest ih => exact ih _ (healthyClear_step s0 op h0)

theorem NP.markInstanceSuccessInst_status (rt : Option ℚ)
    (inst : NitterInstance) :
    (markInstanceSuccessInst rt inst).status = .healthy := by
  cases rt <;> simp only [markInstanceSuccessInst] <;> split_ifs <;> simp_all

theorem NP.markInstanceSuccessInst_failures (rt : Option ℚ)
    (inst : NitterInstance) :
    (markInstanceSuccessInst rt inst).consecutiveFailures = 0 := by
  cases rt <;> simp only [markInstanceSuccessInst] <;> split_ifs <;> simp_all

theorem NP.markInstanceSuccessInst_cooldown (rt : Option ℚ)
    (inst : NitterInstance) (h : healthyClear inst) :
    (markInstanceSuccessInst rt inst).rateLimitedUntil = none := by
  unfold healthyClear at h
  cases rt <;> simp only [markInstanceSuccessInst] <;> split_ifs <;> simp_all

/-- C4 (confirmed): along every operation sequence on a registry entry —
`markInstanceFailed`, `markInstanceSuccess`, health probes — (1) the status
becomes `unhealthy` only through a non-rate-limit failure (an outcome
report with `isRateLimit = false` or a failed probe) whose resulting
`consecutiveFailures` count is at least 3; (2) a rate-limit failure sets
status `rate_limited` with a cooldown of `(90 + jitter) seconds`, jitter in
`[0, 20)`, hence between 90 and 110 seconds from `now`; (3) any successful
outcome report and (4) any successful probe reset `consecutiveFailures` to
0, set status `healthy` and clear the cooldown. -/
theorem C4_health_state_machine (url : String) (ops : List NP.InstanceOp) :
    (∀ op, (NP.runInstance url ops).status ≠ .unhealthy →
        (NP.applyInstanceOp (NP.runInstance url ops) op).status = .unhealthy →
        3 ≤ (NP.applyInstanceOp (NP.runInstance url ops) op).consecutiveFailures ∧
          ((∃ now j, op = .fail false now j) ∨
            ∃ now rt, op = .probe false now rt)) ∧
    (∀ now j, 0 ≤ j → j < 20 →
        (NP.applyInstanceOp (NP.runInstance url ops) (.fail true now j)).status
            = .rate_limited ∧
        (NP.applyInstanceOp (NP.runInstance url ops)
            (.fail true now j)).rateLimitedUntil
            = some (now + (90 + j) * 1000) ∧
        now + 90 * 1000 ≤ now + (90 + j) * 1000 ∧
        now + (90 + j) * 1000 < now + 110 * 1000) ∧
    (∀ rt, (NP.applyInstanceOp (NP.runInstance url ops)
          (.success rt)).consecutiveFailures = 0 ∧
        (NP.applyInstanceOp (NP.runInstance url ops) (.success rt)).status
            = .healthy ∧
        (NP.applyInstanceOp (NP.runInstance url ops)
            (.success rt)).rateLimitedUntil = none) ∧
    (∀ now rt, (NP.applyInstanceOp (NP.runInstance url ops)
          (.probe true now rt)).consecutiveFailures = 0 ∧
        (NP.applyInstanceOp (NP.runInstance url ops) (.probe true now rt)).status
            = .healthy ∧
        (NP.applyInstanceOp (NP.runInstance url ops)
            (.probe true now rt)).rateLimitedUntil = none) := by
  have hclear := NP.healthyClear_run url ops
  set s := NP.runInstance url ops with hs
  refine ⟨?_, ?_, ?_, ?_⟩
  · intro op hne hunh
    cases op with
    | fail isRateLimit now jitterSec =>
        cases isRateLimit with
        | true => simp [NP.applyInstanceOp, NP.markInstanceFailedInst] at hunh
        | false =>
            by_cases h3 : NP.maxConsecutiveFailures ≤ s.consecutiveFailures + 1
            · refine ⟨?_, Or.inl ⟨now, jitterSec, rfl⟩⟩
              have h3v : 3 ≤ s.consecutiveFailures + 1 := by
                simpa [NP.maxConsecutiveFailures] using h3
              simpa [NP.applyInstanceOp, NP.markInstanceFailedInst, h3]
                using h3v
            · exfalso
              apply hne
              simpa [NP.applyInstanceOp, NP.markInstanceFailedInst, h3]
                using hunh
    | success responseTime =>
        exfalso
        rw [show NP.applyInstanceOp s (.success responseTime)
              = NP.markInstanceSuccessInst responseTime s from rfl,
          NP.markInstanceSuccessInst_status] at hunh
        exact absurd hunh (by simp)
    | probe healthy now responseTime =>
        cases healthy with
        | true =>
            simp [NP.applyInstanceOp, NP.probeUpdate] at hunh
        | false =>
            by_cases h3 : NP.maxConsecutiveFailures ≤ s.consecutiveFailures + 1
            · refine ⟨?_, Or.inr ⟨now, responseTime, rfl⟩⟩
              have h3v : 3 ≤ s.consecutiveFailures + 1 := by
                simpa [NP.maxConsecutiveFailures] using h3
              simpa [NP.applyInstanceOp, NP.probeUpdate, h3] using h3v
            · exfalso
              apply hne
              simpa [NP.applyInstanceOp, NP.probeUpdate, h3] using hunh
  · intro now j hj0 hj20
    refine ⟨?_, ?_, by linarith, by linarith⟩
    · simp [NP.applyInstanceOp, NP.markInstanceFailedInst]
    · simp [NP.applyInstanceOp, NP.markInstanceFailedInst]
  · intro rt
    exact ⟨NP.markInstanceSuccessInst_failures rt s,
      NP.markInstanceSuccessInst_status rt s,
      NP.markInstanceSuccessInst_cooldown rt s hclear⟩
  · intro now rt
    refine ⟨?_, ?_, ?_⟩ <;> simp [NP.applyInstanceOp, NP.probeUpdate]

/-- Witness for C4: on a fresh entry, a rate-limit failure at time 0 with
zero jitter sets status `rate_limited` and a cooldown of 90000 ms, and a
subsequent success restores a healthy, cooldown-free entry. -/
theorem C4_health_state_machine_witness :
    (NP.applyInstanceOp (NP.runInstance "https://a" []) (.fail true 0 0)).status
        = .rate_limited ∧
      (NP.applyInstanceOp (NP.runInstance "https://a" [])
          (.fail true 0 0)).rateLimitedUntil = some ((0 : ℚ) + (90 + 0) * 1000) ∧
      (NP.applyInstanceOp (NP.runInstance "https://a" [.fail true 0 0])
          (.success none)).status = .healthy := by
  refine ⟨?_, ?_, ?_⟩
  · exact ((C4_health_state_machine "https://a" []).2.1 0 0 (le_refl 0)
      (by norm_num)).1
  · exact ((C4_health_state_machine "https://a" []).2.1 0 0 (le_refl 0)
      (by norm_num)).2.1
  · exact ((C4_health_state_machine "https://a" [.fail true 0 0]).2.2.1 none).2.1

/-- C10 (confirmed): `markInstanceFailed` and `markInstanceSuccess` on a
URL that is not registered in the pool leave the pool unchanged — no
instance is modified, added or removed. -/
theorem C10_unknown_url_noop (pool : List NP.NitterInstance) (url : String)
    (now jitterSec : ℚ) (isRateLimit : Bool) (rt : Option ℚ)
    (h : NP.findInstance pool url = none) :
    NP.markInstanceFailedPool now jitterSec isRateLimit url pool = pool ∧
      NP.markInstanceSuccessPool rt url pool = pool := by
  constructor
  · unfold NP.markInstanceFailedPool
    rw [h]
  · unfold NP.markInstanceSuccessPool
    rw [h]

/-- Witness for C10: reporting an outcome for an unknown URL against a
one-instance pool changes nothing. -/
theorem C10_unknown_url_noop_witness :
    NP.markInstanceFailedPool 0 0 false "https://b" [NP.initInstance "https://a"]
        = [NP.initInstance "https://a"] ∧
      NP.markInstanceSuccessPool none "https://b" [NP.initInstance "https://a"]
        = [NP.initInstance "https://a"] :=
  C10_unknown_url_noop [NP.initInstance "https://a"] "https://b" 0 0 false none
    (by simp [NP.findInstance, NP.initInstance])

end NitterPoolTheorems

section CollectionTheorems

open GX

theorem GX.addNewTweets_seenCursors (s : TweetCollectionState)
    (tweets : List Tweet) :
    (addNewTweets s tweets).seenCursors = s.seenCursors := by
  simp [addNewTweets]

theorem GX.mem_seenUrls_addNewTweets (s : TweetCollectionState)
    (tweets : List Tweet) (t : Tweet) (ht : t ∈ tweets) :
    t.url ∈ (addNewTweets s tweets).seenUrls := by
  simp only [addNewTweets, List.mem_append]
  by_cases h : t.url ∈ s.seenUrls
  · exact Or.inl h
  · refine Or.inr ?_
    refine List.mem_map.mpr ⟨t, ?_, rfl⟩
    refine List.mem_filter.mpr ⟨ht, ?_⟩
    simpa using h

theorem GX.addNewTweets_idem (s : TweetCollectionState) (tweets : List Tweet) :
    (addNewTweets (addNewTweets s tweets) tweets).allTweets
      = (addNewTweets s tweets).allTweets := by
  have hfil :
      tweets.filter
        (fun t => !((addNewTweets s tweets).seenUrls.contains t.url)) = [] := by
    rw [List.filter_eq_nil_iff]
    intro t ht
    simpa using GX.mem_seenUrls_addNewTweets s tweets t ht
  conv_lhs => rw [addNewTweets]
  simp only [List.append_cancel_left_eq, List.filter_eq_nil_iff]
  rw [hfil]
  simp

theorem GX.urlsInvariant_addNewTweets (s : TweetCollectionState)
    (tweets : List Tweet) (hb : (tweets.map (fun t => t.url)).Nodup)
    (hs : urlsInvariant s) : urlsInvariant (addNewTweets s tweets) := by
  obtain ⟨hnd, hseen⟩ := hs
  constructor
  · simp only [addNewTweets, List.map_append]
    rw [List.nodup_append]
    refine ⟨hnd, ?_, ?_⟩
    · exact List.Nodup.sublist
        (List.Sublist.map _ (List.filter_sublist tweets)) hb
    · intro a ha hb2
      obtain ⟨t, htmem, rfl⟩ := List.mem_map.mp ha
      obtain ⟨t2, ht2mem, ht2url⟩ := List.mem_map.mp hb2
      have h2 := List.mem_filter.mp ht2mem
      have : t.url ∈ s.seenUrls := hseen t htmem
      rw [ht2url] at h2
      simp [this] at h2
  · intro t htmem
    simp only [addNewTweets, List.mem_append] at htmem
    cases htmem with
    | inl h =>
        simp only [addNewTweets, List.mem_append]
        exact Or.inl (hseen t h)
    | inr h =>
        simp only [addNewTweets, List.mem_append]
        refine Or.inr (List.mem_map.mpr ⟨t, h, rfl⟩)

/-- C7 (counterexample): the accumulation step filters an incoming page's
tweets only against URLs seen *before* the page, so a single page carrying
two tweets with the same URL key pushes both; the accumulated list then
contains two tweets with the same URL. -/
theorem C7_within_page_duplicates_counterexample :
    ¬ (((GX.addNewTweets GX.createInitialState
          [⟨"https://x/1", 1⟩, ⟨"https://x/1", 2⟩]).allTweets.map
            (fun t => t.url)).Nodup) := by
  decide

/-- C7 (amended): (1) the accumulation step is idempotent — applying it a
second time with the same tweet list adds no items; (2) provided each
applied tweet list has pairwise-distinct URL keys, the accumulated list
keeps pairwise-distinct URL keys (together with the `seenUrls` bookkeeping
invariant); (3) the initial state satisfies the invariant. Without the
distinctness proviso on a single page's tweets, duplicates can enter. -/
theorem C7_dedup_idempotent (s : GX.TweetCollectionState)
    (tweets : List GX.Tweet) :
    ((GX.addNewTweets (GX.addNewTweets s tweets) tweets).allTweets
        = (GX.addNewTweets s tweets).allTweets) ∧
      ((tweets.map (fun t => t.url)).Nodup → GX.urlsInvariant s →
        GX.urlsInvariant (GX.addNewTweets s tweets)) ∧
      GX.urlsInvariant GX.createInitialState :=
  ⟨GX.addNewTweets_idem s tweets,
    fun hb hs => GX.urlsInvariant_addNewTweets s tweets hb hs,
    ⟨List.nodup_nil, by intro t ht; simp [GX.createInitialState] at ht⟩⟩

/-- Witness for C7 (amended): one deduplicated page keeps the invariant. -/
theorem C7_dedup_idempotent_witness :
    GX.urlsInvariant (GX.addNewTweets GX.createInitialState
      [⟨"https://x/1", 1⟩, ⟨"https://x/2", 2⟩]) :=
  (C7_dedup_idempotent GX.createInitialState
      [⟨"https://x/1", 1⟩, ⟨"https://x/2", 2⟩]).2.1 (by decide)
    (C7_dedup_idempotent GX.createInitialState
      [⟨"https://x/1", 1⟩, ⟨"https://x/2", 2⟩]).2.2

/-- C5 (confirmed): in any loop iteration that actually runs (the stop
check at the top of the iteration does not fire), if the page's next-page
link carries a cursor already recorded in `seenCursors`, the run ends
within that iteration: the result is exactly the state after merging that
page's tweets, and the remaining page renders are never consulted. -/
theorem C5_cursor_loop_terminates (username : String) (tweetsLimit : ℕ)
    (state : GX.TweetCollectionState) (p : GX.PageRender)
    (rest : List GX.PageRender) (c : String)
    (hrun : GX.shouldStopCollection state tweetsLimit = false)
    (hc : GX.cursorOf p.pageInfo.linkHref = some c)
    (hseen : state.seenCursors.contains c = true) :
    GX.runCollect username tweetsLimit (p :: rest) state
      = GX.addNewTweets state p.tweets := by
  rw [GX.runCollect, if_neg (by simp [hrun])]
  have hseen1 : (GX.addNewTweets state p.tweets).seenCursors.contains c = true := by
    rw [GX.addNewTweets_seenCursors]
    exact hseen
  by_cases h1 : GX.shouldStopCollection (GX.addNewTweets state p.tweets)
      tweetsLimit = true
  · simp [h1]
  · have hmem : c ∈ (GX.addNewTweets state p.tweets).seenCursors := by
      simpa using hseen1
    simp only [h1, if_false, Bool.false_eq_true]
    rw [hc]
    simp [hmem]

/-- Witness for C5: a page whose link reuses the already seen cursor `abc`
stops the run within the iteration, discarding a further page render. -/
theorem C5_cursor_loop_terminates_witness :
    GX.runCollect "user" 5
        [⟨[⟨"https://x/1", 1⟩],
            ⟨true, true, some "?cursor=abc", some "Load more", 1⟩, true⟩,
          ⟨[⟨"https://x/2", 2⟩],
            ⟨true, true, some "?cursor=def", some "Load more", 1⟩, true⟩]
        ⟨[], [], 0, ["abc"]⟩
      = GX.addNewTweets ⟨[], [], 0, ["abc"]⟩ [⟨"https://x/1", 1⟩] :=
  C5_cursor_loop_terminates "user" 5 ⟨[], [], 0, ["abc"]⟩
    ⟨[⟨"https://x/1", 1⟩], ⟨true, true, some "?cursor=abc", some "Load more", 1⟩,
      true⟩
    [⟨[⟨"https://x/2", 2⟩], ⟨true, true, some "?cursor=def", some "Load more", 1⟩,
      true⟩]
    "abc" (by decide) (by decide) (by decide)

/-- C6 (confirmed): the returned tweet list never exceeds `tweetsLimit`,
and whenever the run accumulates at least `tweetsLimit` unique tweets (as
it does when the page renders supply that many unique URLs before any
other stop condition fires), the returned list has length exactly
`tweetsLimit`. -/
theorem C6_target_respected (username : String) (tweetsLimit : ℕ)
    (pages : List GX.PageRender) :
    (GX.collectResult username tweetsLimit pages).length ≤ tweetsLimit ∧
      (tweetsLimit ≤ (GX.runCollect username tweetsLimit pages
            GX.createInitialState).allTweets.length →
        (GX.collectResult username tweetsLimit pages).length = tweetsLimit) := by
  constructor
  · exact List.length_take_le _ _
  · intro h
    unfold GX.collectResult
    rw [List.length_take]
    omega

/-- Witness for C6: two renders supplying three unique tweets against a
target of 2 produce exactly 2 tweets. -/
theorem C6_target_respected_witness :
    (GX.collectResult "user" 2
        [⟨[⟨"https://x/1", 1⟩, ⟨"https://x/2", 2⟩, ⟨"https://x/3", 3⟩],
            ⟨true, true, some "?cursor=abc", some "Load more", 3⟩, true⟩]).length
      = 2 :=
  (C6_target_respected "user" 2
      [⟨[⟨"https://x/1", 1⟩, ⟨"https://x/2", 2⟩, ⟨"https://x/3", 3⟩],
          ⟨true, true, some "?cursor=abc", some "Load more", 3⟩, true⟩]).2
    (by decide)

end CollectionTheorems

section AppTheorems

/-- C8 (confirmed): (1) an attempt that fails with the timeout fired, while
the carried progress snapshot holds at least
`minTweetsForPartial = ceil(tweetsLimit * 0.2)` tweets, makes the handler
return that snapshot as an HTTP 206 response with status `partial`;
(2) when the snapshot holds one tweet fewer than the threshold, no attempt
returns a partial result and, once all `MAX_INSTANCE_RETRIES` attempts are
exhausted, the request ends as an HTTP 500 response with status `failed`. -/
theorem C8_partial_result_threshold :
    (∀ (tweetsLimit i : ℕ) (a : App.Attempt) (rest : List App.Attempt)
        (pd : Option ℕ) (rl : Bool) (c : ℕ),
      a.result = .failure true rl → App.updatedSnapshot a pd = some c →
      App.minTweetsForPartial tweetsLimit ≤ c →
      App.runLoop tweetsLimit App.MAX_INSTANCE_RETRIES i (a :: rest) pd
        = ({ status := .partialContent, httpCode := 206, collected := c,
              attemptsUsed := i + 1 }, [])) ∧
    (∀ (tweetsLimit c : ℕ) (url : String),
      c + 1 = App.minTweetsForPartial tweetsLimit →
      (App.runRequest tweetsLimit
          (List.replicate App.MAX_INSTANCE_RETRIES
            ⟨url, some c, .failure true false⟩)).1.status = .failed ∧
        (App.runRequest tweetsLimit
            (List.replicate App.MAX_INSTANCE_RETRIES
              ⟨url, some c, .failure true false⟩)).1.httpCode = 500 ∧
        (App.runRequest tweetsLimit
            (List.replicate App.MAX_INSTANCE_RETRIES
              ⟨url, some c, .failure true false⟩)).1.collected = c) := by
  constructor
  · intro tweetsLimit i a rest pd rl c hres hsnap hthr
    obtain ⟨u, prog, res⟩ := a
    simp only at hres
    subst hres
    simp only [App.runLoop]
    rw [hsnap]
    simp [hthr]
  · intro tweetsLimit c url hthr
    have hlt : ¬ App.minTweetsForPartial tweetsLimit ≤ c := by omega
    have hsnap : App.updatedSnapshot ⟨url, some c, .failure true false⟩ none
        = some c := rfl
    have hsnap2 : ∀ pd, App.updatedSnapshot ⟨url, some c, .failure true false⟩ pd
        = some c := fun pd => rfl
    refine ⟨?_, ?_, ?_⟩ <;>
      simp [App.runRequest, App.runLoop, App.MAX_INSTANCE_RETRIES,
        App.finalFailure, List.replicate, hsnap2, hlt]

/-- Witness for C8: with a target of 50 the threshold is 10; a timed-out
attempt with a 10-tweet snapshot yields a 206 partial, and three timed-out
attempts with 9-tweet snapshots end in a 500 failure. -/
theorem C8_partial_result_threshold_witness :
    App.runLoop 50 App.MAX_INSTANCE_RETRIES 0
        [⟨"https://a", some 10, .failure true false⟩] none
      = ({ status := .partialContent, httpCode := 206, collected := 10,
            attemptsUsed := 1 }, []) ∧
      (App.runRequest 50 (List.replicate App.MAX_INSTANCE_RETRIES
          ⟨"https://a", some 9, .failure true false⟩)).1.status = .failed := by
  have hmin : App.minTweetsForPartial 50 = 10 := by
    unfold App.minTweetsForPartial App.PARTIAL_RESULTS_MIN_THRESHOLD
    norm_num
    rfl
  constructor
  · exact C8_partial_result_threshold.1 50 0
      ⟨"https://a", some 10, .failure true false⟩ [] none false 10 rfl rfl
      (by rw [hmin])
  · exact (C8_partial_result_threshold.2 50 9 "https://a" (by rw [hmin])).1

/-- C9 (counterexample): when all `MAX_INSTANCE_RETRIES = 3` attempts of a
request with `tweetsLimit = 50` succeed with zero tweets, the final attempt
does return the zero-yield result as a successful response with status
`complete` — the claim that a zero-yield success is never returned as
`complete` fails on the final attempt. -/
theorem C9_zero_yield_complete_counterexample :
    (App.runRequest 50
        [⟨"https://a", none, .success 0⟩, ⟨"https://a", none, .success 0⟩,
          ⟨"https://a", none, .success 0⟩]).1.status = .complete ∧
      (App.runRequest 50
          [⟨"https://a", none, .success 0⟩, ⟨"https://a", none, .success 0⟩,
            ⟨"https://a", none, .success 0⟩]).1.collected = 0 := by
  decide

/-- C9 (amended): a successful attempt yielding zero tweets with
`tweetsLimit ≥ 50` is treated as a soft failure — the instance is
penalised via `markInstanceFailed` and, on every attempt before the last,
the response is produced by the remaining attempts; on the final attempt,
however, the code falls through and the zero-yield result is returned as a
successful response with status `complete` (and without a
`markInstanceSuccess`). -/
theorem C9_zero_yield_soft_failure (tweetsLimit maxAttempts i : ℕ)
    (a : App.Attempt) (rest : List App.Attempt) (pd : Option ℕ)
    (hlim : 50 ≤ tweetsLimit) (hz : a.result = .success 0) :
    (i < maxAttempts - 1 →
      App.runLoop tweetsLimit maxAttempts i (a :: rest) pd
        = ((App.runLoop tweetsLimit maxAttempts (i + 1) rest
              (App.updatedSnapshot a pd)).1,
            .markFailed a.instanceUrl false ::
              (App.runLoop tweetsLimit maxAttempts (i + 1) rest
                (App.updatedSnapshot a pd)).2)) ∧
      (¬ i < maxAttempts - 1 →
        App.runLoop tweetsLimit maxAttempts i (a :: rest) pd
          = ({ status := .complete, httpCode := 200, collected := 0,
                attemptsUsed := i + 1 }, [.markFailed a.instanceUrl false])) := by
  obtain ⟨u, prog, res⟩ := a
  simp only at hz
  subst hz
  constructor
  · intro hlast
    simp [App.runLoop, hlim, hlast]
  · intro hlast
    simp [App.runLoop, hlim, hlast]

/-- Witness for C9 (amended): on the final attempt (index 2 of 3) a
zero-yield success is returned as `complete` with the instance penalised. -/
theorem C9_zero_yield_soft_failure_witness :
    App.runLoop 50 3 2 [⟨"https://a", none, .success 0⟩] none
      = ({ status := .complete, httpCode := 200, collected := 0,
            attemptsUsed := 3 }, [.markFailed "https://a" false]) :=
  (C9_zero_yield_soft_failure 50 3 2 ⟨"https://a", none, .success 0⟩ [] none
      (by norm_num) rfl).2 (by norm_num)

end AppTheorems
